import Mathlib

/-!
Verification development for the taskmaster process supervisor.

The definitions below are a shallow embedding of the C++ sources:
  - `Process` lifecycle engine (src/Process.cpp, Process.hpp),
  - the configuration diff engine (src/ConfigManager.cpp),
  - the supervisor controller (src/TaskMaster.cpp) together with the
    earlier snapshot of its start-retry loop (unnamed part_011) and the
    later snapshot of `Process::start` (unnamed part_015),
  - the signal handler (src/Utils.cpp).

Machine integers of the C++ code are modelled as `Int`/`Nat` with explicit
wrap-around where it matters (`size_t` arithmetic in `std::string::find` /
`substr`).  Child processes are modelled by an explicit OS state
(`PState`) per pid; the behaviour of a child under the configured stop
signal is an environment oracle (`dies : Nat → Bool`).  Fallible C++ code
(functions that `throw`) returns `Except String`.
-/

namespace Taskmaster

/-! ## Environment-variable maps

`std::map<std::string, std::string>` is a key-sorted, duplicate-free
association container; `operator[]` inserts or overwrites.  We model it
as a key-sorted association list (the canonical form), so that Lean list
equality coincides with `std::map` equality. -/

abbrev EnvMap := List (String × String)

/-- Insert-or-assign into a key-sorted association list, mirroring
`std::map::operator[]` followed by assignment. -/
def envInsert (k v : String) : EnvMap → EnvMap
  | [] => [(k, v)]
  | (k', v') :: rest =>
    match compare k k' with
    | .lt => (k, v) :: (k', v') :: rest
    | .eq => (k, v) :: rest
    | .gt => (k', v') :: envInsert k v rest

/-! ## C++ `size_t` string primitives

`std::string::find` returns `npos = 2^64 - 1` when the character is
absent; `substr(pos)` takes the suffix starting at `pos` (after the
`size_t` wrap-around of any arithmetic the caller performed on `pos`),
and `substr(0, count)` clamps `count` to the string size. -/

def npos : Nat := 2 ^ 64 - 1

/-- Model of `s.find(c)` on a `std::string`. -/
def cppFind (s : String) (c : Char) : Nat :=
  match s.data.findIdx? (· = c) with
  | some i => i
  | none => npos

/-- Parsing of one `KEY=VALUE` entry in `Process::parseConfig`
(src/Process.cpp lines 89–95):
`key = s.substr(0, delimiterPos)`, `value = s.substr(delimiterPos + 1)`,
where `delimiterPos + 1` is `size_t` arithmetic. -/
def parseEnvEntry (s : String) : String × String :=
  let delimiterPos := cppFind s '='
  (⟨s.data.take delimiterPos⟩, ⟨s.data.drop ((delimiterPos + 1) % 2 ^ 64)⟩)

/-- The identical parsing of one `KEY=VALUE` entry as duplicated in
`ConfigManager::checkEnvironmentVariables` (src/ConfigManager.cpp lines
121–134). -/
def parseEnvEntryCheck (s : String) : String × String :=
  let delimiterPos := cppFind s '='
  (⟨s.data.take delimiterPos⟩, ⟨s.data.drop ((delimiterPos + 1) % 2 ^ 64)⟩)

/-- Build the environment map from the raw entry list, as in
`Process::parseConfig`. -/
def envBuild (entries : List String) : EnvMap :=
  entries.foldl (fun m s => let kv := parseEnvEntry s; envInsert kv.1 kv.2 m) []

/-- Build the candidate environment map from the raw entry list, as in
`ConfigManager::checkEnvironmentVariables`. -/
def envBuildCheck (entries : List String) : EnvMap :=
  entries.foldl (fun m s => let kv := parseEnvEntryCheck s; envInsert kv.1 kv.2 m) []

/-! ## Signal numbers and the signal map -/

def SIGHUP : Int := 1
def SIGINT : Int := 2
def SIGQUIT : Int := 3
def SIGKILL : Int := 9
def SIGTERM : Int := 15
def SIGCONT : Int := 18
def SIGSTOP : Int := 19

/-- The `Process::signalMap` member (Process.hpp): the recognized stop
signals, in `std::map` key order. -/
def signalMap : List (String × Int) :=
  [("SIGCONT", SIGCONT), ("SIGINT", SIGINT), ("SIGKILL", SIGKILL),
   ("SIGSTOP", SIGSTOP), ("SIGTERM", SIGTERM)]

/-- Lookup in the signal map (`signalMap.find(str)`). -/
def signalMapFind (s : String) : Option Int :=
  (signalMap.find? (fun kv => kv.1 = s)).map (·.2)

/-! ## Candidate program configuration

One `programs` entry of the configuration document, with the types used
by the `config.at(...).get<T>()` accessors in `Process::parseConfig`. -/

structure Config where
  command : String
  instances : Int
  autoStart : Bool
  autoRestart : String
  startTime : Int
  stopTime : Int
  restartAttempts : Int
  stopSignal : String
  expectedExitCodes : List Int
  workingDirectory : String
  umask : Int
  stdoutLog : String
  stderrLog : String
  environmentVariables : List String
deriving DecidableEq, Repr

/-! ## Program runtime state

The fields of `class Process` (Process.hpp) that the modelled operations
read or write.  `stopSignal` holds the resolved signal number. -/

structure Proc where
  name : String
  command : String
  instances : Int
  autoStart : Bool
  autoRestart : String
  startTime : Int
  stopTime : Int
  restartAttempts : Int
  stopSignal : Int
  expectedExitCodes : List Int
  workingDirectory : String
  umaskInt : Int
  stdoutLog : String
  stderrLog : String
  environmentVariables : EnvMap
  childPids : List Nat
  monitorThreadRunning : Bool
  userStopped : Bool
deriving DecidableEq, Repr

/-- `Process::parseConfig` (src/Process.cpp lines 62–96): field reads in
source order, each validation `throw` modelled as `Except.error`. -/
def parseConfig (name : String) (config : Config) : Except String Proc := do
  let command := config.command
  let instances := config.instances
  if instances < 0 then
    throw (name ++ ": Invalid number of instances: " ++ toString instances)
  let autoStart := config.autoStart
  let autoRestart := config.autoRestart
  if autoRestart ≠ "always" ∧ autoRestart ≠ "never" ∧ autoRestart ≠ "unexpected" then
    throw (name ++ ": Invalid auto restart value: " ++ autoRestart)
  let startTime := config.startTime
  if startTime < 0 then
    throw (name ++ ": Invalid start time: " ++ toString startTime)
  let stopTime := config.stopTime
  if stopTime < 0 then
    throw (name ++ ": Invalid stop time: " ++ toString stopTime)
  let restartAttempts := config.restartAttempts
  if restartAttempts < 0 then
    throw (name ++ ": Invalid restart attempts: " ++ toString restartAttempts)
  let stopSignal ←
    match signalMapFind config.stopSignal with
    | none => throw (name ++ ": Invalid stop signal: " ++ config.stopSignal)
    | some sig => pure sig
  pure
    { name := name
      command := command
      instances := instances
      autoStart := autoStart
      autoRestart := autoRestart
      startTime := startTime
      stopTime := stopTime
      restartAttempts := restartAttempts
      stopSignal := stopSignal
      expectedExitCodes := config.expectedExitCodes
      workingDirectory := config.workingDirectory
      umaskInt := config.umask
      stdoutLog := config.stdoutLog
      stderrLog := config.stderrLog
      environmentVariables := envBuild config.environmentVariables
      childPids := []
      monitorThreadRunning := false
      userStopped := false }

/-! ## Change sets

`ConfigChangesMap` is `std::unordered_map<std::string, std::string>`;
its equality is extensional (same key/value associations).  We model it
as a key-sorted association list (canonical form) whose values are kept
in typed form: the C++ code stringifies each new value with an injective
encoding (`std::to_string` for integers and booleans, a JSON dump for
the exit-code vector and the environment map) and `applyChanges` parses
back exactly the encoded value, so the typed map below and the
stringified map are in bijection. -/

inductive ChangeVal where
  | str (s : String)
  | int (n : Int)
  | bool (b : Bool)
  | codes (cs : List Int)
  | env (m : EnvMap)
deriving DecidableEq, Repr

abbrev Changes := List (String × ChangeVal)

/-- Insert-or-assign into the canonical change-set representation
(`changes[key] = value`). -/
def changesInsert (k : String) (v : ChangeVal) : Changes → Changes
  | [] => [(k, v)]
  | (k', v') :: rest =>
    match compare k k' with
    | .lt => (k, v) :: (k', v') :: rest
    | .eq => (k, v) :: rest
    | .gt => (k', v') :: changesInsert k v rest

/-- Lookup in a change set (`changes.find(key)`). -/
def changesFind (k : String) (ch : Changes) : Option ChangeVal :=
  (ch.find? (fun kv => kv.1 = k)).map (·.2)

/-! ## The diff-engine checks (src/ConfigManager.cpp lines 15–134)

Each check receives the candidate configuration, read-only access to the
`Process` (threaded through explicitly so that the absence of mutation
is a provable fact), and the change set accumulated so far. -/

/-- `ConfigManager::checkCommand`. -/
def checkCommand (c : Config) (p : Proc) (ch : Changes) : Except String (Proc × Changes) :=
  if c.command ≠ p.command then .ok (p, changesInsert "command" (.str c.command) ch)
  else .ok (p, ch)

/-- `ConfigManager::checkInstances`. -/
def checkInstances (c : Config) (p : Proc) (ch : Changes) : Except String (Proc × Changes) :=
  if c.instances ≠ p.instances then
    if c.instances < 0 then
      .error (p.name ++ ": Invalid number of instances: " ++ toString c.instances)
    else .ok (p, changesInsert "instances" (.int c.instances) ch)
  else .ok (p, ch)

/-- `ConfigManager::checkAutoStart`. -/
def checkAutoStart (c : Config) (p : Proc) (ch : Changes) : Except String (Proc × Changes) :=
  if c.autoStart ≠ p.autoStart then .ok (p, changesInsert "auto_start" (.bool c.autoStart) ch)
  else .ok (p, ch)

/-- `ConfigManager::checkAutoRestart`. -/
def checkAutoRestart (c : Config) (p : Proc) (ch : Changes) : Except String (Proc × Changes) :=
  if c.autoRestart ≠ p.autoRestart then
    if c.autoRestart ≠ "always" ∧ c.autoRestart ≠ "never" ∧ c.autoRestart ≠ "unexpected" then
      .error (p.name ++ ": Invalid auto restart value: " ++ c.autoRestart)
    else .ok (p, changesInsert "auto_restart" (.str c.autoRestart) ch)
  else .ok (p, ch)

/-- `ConfigManager::checkStartTime`. -/
def checkStartTime (c : Config) (p : Proc) (ch : Changes) : Except String (Proc × Changes) :=
  if c.startTime ≠ p.startTime then
    if c.startTime < 0 then
      .error (p.name ++ ": Invalid start time: " ++ toString c.startTime)
    else .ok (p, changesInsert "start_time" (.int c.startTime) ch)
  else .ok (p, ch)

/-- `ConfigManager::checkStopTime`. -/
def checkStopTime (c : Config) (p : Proc) (ch : Changes) : Except String (Proc × Changes) :=
  if c.stopTime ≠ p.stopTime then
    if c.stopTime < 0 then
      .error (p.name ++ ": Invalid stop time: " ++ toString c.stopTime)
    else .ok (p, changesInsert "stop_time" (.int c.stopTime) ch)
  else .ok (p, ch)

/-- `ConfigManager::checkRestartAttempts`. -/
def checkRestartAttempts (c : Config) (p : Proc) (ch : Changes) : Except String (Proc × Changes) :=
  if c.restartAttempts ≠ p.restartAttempts then
    if c.restartAttempts < 0 then
      .error (p.name ++ ": Invalid restart attempts: " ++ toString c.restartAttempts)
    else .ok (p, changesInsert "restart_attempts" (.int c.restartAttempts) ch)
  else .ok (p, ch)

/-- `ConfigManager::checkStopSignal`: validates the candidate signal
name against the signal map before comparing. -/
def checkStopSignal (c : Config) (p : Proc) (ch : Changes) : Except String (Proc × Changes) :=
  match signalMapFind c.stopSignal with
  | none => .error (p.name ++ ": Invalid stop signal: " ++ c.stopSignal)
  | some sig =>
    if sig ≠ p.stopSignal then .ok (p, changesInsert "stop_signal" (.str c.stopSignal) ch)
    else .ok (p, ch)

/-- `ConfigManager::checkExpectedExitCodes`: the C++ body copies the
current vector into a local, clears it and reassigns the candidate; the
serialized value is the candidate list and the `Process` is untouched. -/
def checkExpectedExitCodes (c : Config) (p : Proc) (ch : Changes) : Except String (Proc × Changes) :=
  if c.expectedExitCodes ≠ p.expectedExitCodes then
    .ok (p, changesInsert "expected_exit_codes" (.codes c.expectedExitCodes) ch)
  else .ok (p, ch)

/-- `ConfigManager::checkWorkingDirectory`. -/
def checkWorkingDirectory (c : Config) (p : Proc) (ch : Changes) : Except String (Proc × Changes) :=
  if c.workingDirectory ≠ p.workingDirectory then
    .ok (p, changesInsert "working_directory" (.str c.workingDirectory) ch)
  else .ok (p, ch)

/-- `ConfigManager::checkUmask`. -/
def checkUmask (c : Config) (p : Proc) (ch : Changes) : Except String (Proc × Changes) :=
  if c.umask ≠ p.umaskInt then .ok (p, changesInsert "umask" (.int c.umask) ch)
  else .ok (p, ch)

/-- `ConfigManager::checkStdoutLog`. -/
def checkStdoutLog (c : Config) (p : Proc) (ch : Changes) : Except String (Proc × Changes) :=
  if c.stdoutLog ≠ p.stdoutLog then .ok (p, changesInsert "stdout_log" (.str c.stdoutLog) ch)
  else .ok (p, ch)

/-- `ConfigManager::checkStderrLog`. -/
def checkStderrLog (c : Config) (p : Proc) (ch : Changes) : Except String (Proc × Changes) :=
  if c.stderrLog ≠ p.stderrLog then .ok (p, changesInsert "stderr_log" (.str c.stderrLog) ch)
  else .ok (p, ch)

/-- `ConfigManager::checkEnvironmentVariables`: parses the candidate
entries with the same `KEY=VALUE` convention as `Process::parseConfig`
and compares the resulting maps. -/
def checkEnvironmentVariables (c : Config) (p : Proc) (ch : Changes) : Except String (Proc × Changes) :=
  let newEnvVars := envBuildCheck c.environmentVariables
  if newEnvVars ≠ p.environmentVariables then
    .ok (p, changesInsert "environment_variables" (.env newEnvVars) ch)
  else .ok (p, ch)

/-- `Process::detectChanges` (src/Process.cpp lines 372–391): the
fourteen checks in source order over an initially empty change set. -/
def detectChanges (c : Config) (p : Proc) : Except String (Proc × Changes) := do
  let r1 ← checkCommand c p []
  let r2 ← checkInstances c r1.1 r1.2
  let r3 ← checkAutoStart c r2.1 r2.2
  let r4 ← checkAutoRestart c r3.1 r3.2
  let r5 ← checkStartTime c r4.1 r4.2
  let r6 ← checkStopTime c r5.1 r5.2
  let r7 ← checkRestartAttempts c r6.1 r6.2
  let r8 ← checkStopSignal c r7.1 r7.2
  let r9 ← checkExpectedExitCodes c r8.1 r8.2
  let r10 ← checkWorkingDirectory c r9.1 r9.2
  let r11 ← checkUmask c r10.1 r10.2
  let r12 ← checkStdoutLog c r11.1 r11.2
  let r13 ← checkStderrLog c r12.1 r12.2
  let r14 ← checkEnvironmentVariables c r13.1 r13.2
  pure r14

/-- The restart-required key list of `Process::changesRequireRestart`
(src/Process.cpp line 344).  Note that `stop_signal`, `instances`,
`umask` and `expected_exit_codes` are absent. -/
def restartKeys : List String :=
  ["command", "auto_start", "auto_restart", "working_directory", "stdout_log",
   "stderr_log", "environment_variables", "start_time", "stop_time", "restart_attempts"]

/-- `Process::changesRequireRestart` (src/Process.cpp lines 343–355). -/
def changesRequireRestart (changes : Changes) : Bool :=
  restartKeys.foldl (fun requiresRestart key =>
    if (changesFind key changes).isSome then true else requiresRestart) false

/-- One step of `Process::applyChanges` (src/Process.cpp lines 394–429).
The `expected_exit_codes` branch of the C++ switch is an empty
"already handled" comment: the field is never written. -/
def applyOneChange (p : Proc) (kv : String × ChangeVal) : Proc :=
  if kv.1 = "command" then
    match kv.2 with | .str v => { p with command := v } | _ => p
  else if kv.1 = "instances" then
    match kv.2 with | .int v => { p with instances := v } | _ => p
  else if kv.1 = "auto_start" then
    match kv.2 with | .bool v => { p with autoStart := v } | _ => p
  else if kv.1 = "auto_restart" then
    match kv.2 with | .str v => { p with autoRestart := v } | _ => p
  else if kv.1 = "start_time" then
    match kv.2 with | .int v => { p with startTime := v } | _ => p
  else if kv.1 = "stop_time" then
    match kv.2 with | .int v => { p with stopTime := v } | _ => p
  else if kv.1 = "restart_attempts" then
    match kv.2 with | .int v => { p with restartAttempts := v } | _ => p
  else if kv.1 = "stop_signal" then
    -- `signalMap.at(value)`: the value was validated by `checkStopSignal`,
    -- so the lookup always succeeds; a missing key keeps the old signal.
    match kv.2 with
    | .str v => { p with stopSignal := (signalMapFind v).getD p.stopSignal }
    | _ => p
  else if kv.1 = "expected_exit_codes" then p
  else if kv.1 = "working_directory" then
    match kv.2 with | .str v => { p with workingDirectory := v } | _ => p
  else if kv.1 = "umask" then
    match kv.2 with | .int v => { p with umaskInt := v } | _ => p
  else if kv.1 = "stdout_log" then
    match kv.2 with | .str v => { p with stdoutLog := v } | _ => p
  else if kv.1 = "stderr_log" then
    match kv.2 with | .str v => { p with stderrLog := v } | _ => p
  else if kv.1 = "environment_variables" then
    match kv.2 with | .env v => { p with environmentVariables := v } | _ => p
  else p

/-- `Process::applyChanges`: fold the change set over the snapshot. -/
def applyChanges (p : Proc) (changes : Changes) : Proc :=
  changes.foldl applyOneChange p

/-! ## OS model for child processes

Each pid is in one of three states: `running` (alive), `zombie` (exited
but not reaped — `kill(pid, 0)` still succeeds, `waitpid` returns the
pid), or `gone` (reaped or never spawned — `kill` fails with `ESRCH`,
`waitpid` returns `-1`).  Whether a running child exits when it receives
the configured stop signal is an environment oracle `dies`. -/

inductive PState where
  | running
  | zombie
  | gone
deriving DecidableEq, Repr

abbrev OS := Nat → PState

/-- `kill(pid, 0) == 0`: the pid exists (alive or zombie). -/
def pidExists (st : PState) : Bool := st ≠ PState.gone

/-- `Process::getRunningChildCount` (src/Process.cpp lines 135–145):
counts the tracked pids for which `kill(pid, 0)` succeeds. -/
def getRunningChildCount (p : Proc) (os : OS) : Nat :=
  p.childPids.countP (fun pid => pidExists (os pid))

/-- `Process::stopProcess` (src/Process.cpp lines 255–276): up to
`stopTime` iterations of send-signal / non-blocking reap.  Returns
whether the pid was pushed onto `pidsToErase`, together with the pid's
OS state afterwards.  With `stopTime ≤ 0` the loop body never runs.
Otherwise the first iterations decide the outcome: a `gone` pid gives
`ESRCH` (erase, state unchanged); a `zombie` is reaped (erase, `gone`);
a running child that the signal kills (`dies = true`) exits and is
reaped within the budget (erase, `gone`); a running child that ignores
the signal survives all iterations (no erase). -/
def stopProcessG (stopTime : Int) (st : PState) (dies : Bool) : Bool × PState :=
  if stopTime ≤ 0 then (false, st)
  else
    match st with
    | .gone => (true, .gone)
    | .zombie => (true, .gone)
    | .running => if dies then (true, .gone) else (false, .running)

/-- `Process::forceStopProcess` (src/Process.cpp lines 279–291):
`SIGKILL` followed by a reap loop.  A `gone` pid gives `ESRCH` (erase);
an existing pid is killed and reaped (erase, `gone`). -/
def forceStopProcessM (st : PState) : Bool × PState :=
  match st with
  | .gone => (true, .gone)
  | _ => (true, .gone)

/-- The per-pid body of `Process::stop`'s inner loop: graceful stop,
escalating to forced stop when the graceful attempt fails. -/
def stopOnePid (stopTime : Int) (dies : Bool) (st : PState) : Bool × PState :=
  let g := stopProcessG stopTime st dies
  if g.1 then g else forceStopProcessM g.2

/-- The body of `Process::stop`'s inner `for` loop over one tracked
pid: skip `pid <= 0`, otherwise stop the pid, accumulating
`pidsToErase` and the updated OS state. -/
def stopFoldStep (stopTime : Int) (dies : Nat → Bool) (acc : List Nat × OS) (pid : Nat) :
    List Nat × OS :=
  if pid = 0 then acc
  else
    let r := stopOnePid stopTime (dies pid) (acc.2 pid)
    ((if r.1 then pid :: acc.1 else acc.1),
     fun q => if q = pid then r.2 else acc.2 q)

/-- One pass of `Process::stop`'s outer loop (src/Process.cpp lines
237–250): iterate over the tracked pids, then
`cleanupStoppedProcesses` removes the erased pids. -/
def stopPass (stopTime : Int) (dies : Nat → Bool) (pids : List Nat) (os : OS) :
    List Nat × OS :=
  let folded := pids.foldl (stopFoldStep stopTime dies) ([], os)
  (pids.filter (fun pid => !folded.1.contains pid), folded.2)

/-- `Process::stop` (src/Process.cpp lines 228–253).  Early return when
no tracked pid exists; otherwise set `userStopped`, run outer-loop
passes until `child_pids` is empty, and clear `userStopped`.  A single
pass erases every positive tracked pid, and pids `≤ 0` are skipped
forever, so the C++ `while` either finishes after the first pass or
never terminates; the non-terminating case is modelled as `none`. -/
def stopP (p : Proc) (os : OS) (dies : Nat → Bool) : Option (Proc × OS) :=
  if getRunningChildCount p os = 0 then some (p, os)
  else
    let pass := stopPass p.stopTime dies p.childPids os
    if pass.1 = [] then
      some ({ p with userStopped := false, childPids := [] }, pass.2)
    else none

/-- `Process::stopInstance` (src/Process.cpp lines 301–316): stop the
most recently added pid with the same graceful-then-forceful protocol
and remove it from the tracked list. -/
def stopInstanceP (p : Proc) (os : OS) (dies : Nat → Bool) : Proc × OS :=
  match p.childPids.getLast? with
  | none => (p, os)
  | some lastPid =>
    let r := stopOnePid p.stopTime (dies lastPid) (os lastPid)
    let pidsToErase : List Nat := if r.1 then [lastPid] else []
    ({ p with childPids := p.childPids.filter (fun pid => !pidsToErase.contains pid) },
     fun q => if q = lastPid then r.2 else os q)

/-- `Process::start` (src/Process.cpp lines 106–133): validate
`instances`, then spawn one child for each index from the current
running count up to `instances`, append the new pids, and mark the
monitor running.  Fresh pids are `fresh, fresh + 1, …`; fork failures
are outside this model. -/
def startP (p : Proc) (os : OS) (fresh : Nat) : Except String (Proc × OS × Nat) :=
  if p.instances < 1 then
    .error ("Invalid number of instances: " ++ toString p.instances)
  else
    let running := getRunningChildCount p os
    let need := (p.instances - running).toNat
    let newPids := (List.range need).map (fun i => fresh + i)
    .ok ({ p with childPids := p.childPids ++ newPids, monitorThreadRunning := true },
         fun q => if newPids.contains q then PState.running else os q,
         fresh + need)

/-- The effect of a `this->start()` call whose exception escapes the
caller unhandled: on error the object is unchanged (the throw happens
before any mutation). -/
def startEffect (p : Proc) (os : OS) (fresh : Nat) : Proc × OS × Nat :=
  match startP p os fresh with
  | .error _ => (p, os, fresh)
  | .ok r => r

/-! ## Child-exit handling -/

/-- Classification of a reaped `waitpid` status. -/
inductive ExitKind where
  | exited (code : Int)
  | signaled (sig : Int)
  | unknown
deriving DecidableEq, Repr

/-- The `exitStatus` local of `Process::handleChildExit`:
`WEXITSTATUS` for a normal exit, `WTERMSIG` for a signal death, `-1`
otherwise. -/
def exitStatusOf : ExitKind → Int
  | .exited code => code
  | .signaled sig => sig
  | .unknown => -1

/-- `Process::handleChildExit` (src/Process.cpp lines 198–225): if the
pid is tracked, erase it, classify the status, and apply the
auto-restart policy unless `userStopped` is set.  The returned `Bool`
records whether `this->start()` was invoked. -/
def handleChildExit (p : Proc) (os : OS) (fresh : Nat) (pid : Nat) (k : ExitKind) :
    (Proc × OS × Nat) × Bool :=
  if p.childPids.contains pid then
    let p1 := { p with childPids := p.childPids.erase pid }
    let exitStatus := exitStatusOf k
    if p1.autoRestart = "always" ∧ ¬p1.userStopped then
      (startEffect p1 os fresh, true)
    else if p1.autoRestart = "unexpected" then
      if ¬p1.userStopped ∧ ¬p1.expectedExitCodes.contains exitStatus then
        (startEffect p1 os fresh, true)
      else ((p1, os, fresh), false)
    else ((p1, os, fresh), false)
  else ((p, os, fresh), false)

/-! ## Reload -/

/-- Observable lifecycle actions performed by a reload. -/
inductive LifeEvent where
  | stopEv
  | startEv
  | umaskEv
deriving DecidableEq, Repr

/-- `Process::updateDinamicallyWithoutRestarting` (src/Process.cpp lines
357–363): iterate the change set; only the `umask` key triggers an
action (`updateUmask`, a process-wide `::umask` call). -/
def updateDinamicallyWithoutRestarting (changes : Changes) : List LifeEvent :=
  changes.foldl (fun evs kv => if kv.1 = "umask" then evs ++ [LifeEvent.umaskEv] else evs) []

/-- `Process::reloadConfig` (src/Process.cpp lines 320–341), with the
surrounding OS state.  Returns the state afterwards, the escaped
exception if any (the `Process` object survives a throw unchanged —
`applyChanges` has not run), and the lifecycle events performed. -/
def reloadConfigFull (p : Proc) (os : OS) (dies : Nat → Bool) (fresh : Nat) (c : Config) :
    (Proc × OS × Nat) × Option String × List LifeEvent :=
  match detectChanges c p with
  | .error e => ((p, os, fresh), some e, [])
  | .ok r =>
    let changes := r.2
    if changes = [] then ((p, os, fresh), none, [])
    else
      let p2 := applyChanges p changes
      if changesRequireRestart changes then
        let p3 := { p2 with userStopped := true }
        match stopP p3 os dies with
        | none => ((p3, os, fresh), none, [LifeEvent.stopEv])
        | some s =>
          let started := startEffect s.1 s.2 fresh
          (started, none, [LifeEvent.stopEv, LifeEvent.startEv])
      else ((p2, os, fresh), none, updateDinamicallyWithoutRestarting changes)

/-! ## System steps for the process-accounting invariant

The observable transitions of one Program: its lifecycle operations, a
child dying in the OS, and a monitor reap (`waitpid` on a zombie child
followed by `handleChildExit`). -/

structure Sys where
  proc : Proc
  os : OS
  nextPid : Nat

inductive Step where
  | start
  | stop
  | stopInstance
  | die (pid : Nat)
  | reap (pid : Nat) (k : ExitKind)
  | reload (c : Config)

/-- Whether a step is a configuration reload. -/
def Step.isReload : Step → Bool
  | .reload _ => true
  | _ => false

/-- The transition function.  `start`, `stop`, `stopInstance` and
`reload` are the Program operations; `die` marks a running child as
exited (it becomes a zombie); `reap pid k` models one monitor-loop
reap: `waitpid` succeeds only on a zombie, removes it from the OS, and
`handleChildExit` runs. -/
def stepSys (dies : Nat → Bool) (s : Sys) : Step → Sys
  | .start =>
    let r := startEffect s.proc s.os s.nextPid
    ⟨r.1, r.2.1, r.2.2⟩
  | .stop =>
    match stopP s.proc s.os dies with
    | some r => ⟨r.1, r.2, s.nextPid⟩
    | none => s
  | .stopInstance =>
    let r := stopInstanceP s.proc s.os dies
    ⟨r.1, r.2, s.nextPid⟩
  | .die pid =>
    ⟨s.proc,
     fun q => if q = pid then (match s.os pid with | .running => .zombie | st => st) else s.os q,
     s.nextPid⟩
  | .reap pid k =>
    match s.os pid with
    | .zombie =>
      let os1 : OS := fun q => if q = pid then .gone else s.os q
      let r := handleChildExit s.proc os1 s.nextPid pid k
      ⟨r.1.1, r.1.2.1, r.1.2.2⟩
    | _ => s
  | .reload c =>
    let r := reloadConfigFull s.proc s.os dies s.nextPid c
    ⟨r.1.1, r.1.2.1, r.1.2.2⟩

/-! ## The start-retry loops

Two snapshots of the repository implement the restart-attempt budget.

`TaskMaster::startProcess` (unnamed part_011, lines 158–185):

  attempts = 0; maxAttempts = restartAttempts;
  do {
    process->start(); sleep; if (isRunning()) break;           // one attempt
    if (attempts == maxAttempts) { log max-attempts; stop(); break; }
    attempts++;
  } while (attempts <= maxAttempts);

`Process::start` (unnamed part_015, lines 155–193) moved the loop into
the Program with a strict guard:

  attempts = 0;
  do {
    startChildProcessAndMonitor(); sleep; if (isRunning()) break;
    if (attempts == restartAttempts) { log max-attempts; stop(); break; }
    attempts++;
  } while (attempts < restartAttempts);

Whether attempt number `k` reaches the fully-running state is the
oracle `succeeds k`; the value returned is the number of launch
attempts performed, paired with how the loop ended. -/

inductive StartOutcome where
  | success
  | exhaustedStop
  | quietExit
deriving DecidableEq, Repr

/-- The part_011 loop, by recursion on `maxAttempts - attempts` (the
loop increments `attempts` exactly when it continues, and the `<=`
guard is always true after an increment that did not hit the
`attempts == maxAttempts` break).  `fuel = maxAttempts - attempts`:
at `fuel = 0` the current attempt is the last one. -/
def tmStartAux (succeeds : Nat → Bool) : Nat → Nat → Nat × StartOutcome
  | 0, a => if succeeds a then (1, .success) else (1, .exhaustedStop)
  | fuel + 1, a =>
    if succeeds a then (1, .success)
    else
      let r := tmStartAux succeeds fuel (a + 1)
      (r.1 + 1, r.2)

/-- `TaskMaster::startProcess` retry loop (part_011). -/
def tmStartProcess (maxAttempts : Nat) (succeeds : Nat → Bool) : Nat × StartOutcome :=
  tmStartAux succeeds maxAttempts 0

/-- The part_015 loop, by recursion on `restartAttempts - attempts`.
At `fuel = 0` we have `attempts == restartAttempts`, so a failed
attempt hits the max-attempts branch; at `fuel = 1` the failed attempt
is followed by the increment and the strict `<` guard is false, so the
loop exits without the max-attempts branch. -/
def procStartAux (succeeds : Nat → Bool) : Nat → Nat → Nat × StartOutcome
  | 0, a => if succeeds a then (1, .success) else (1, .exhaustedStop)
  | 1, a => if succeeds a then (1, .success) else (1, .quietExit)
  | fuel + 2, a =>
    if succeeds a then (1, .success)
    else
      let r := procStartAux succeeds (fuel + 1) (a + 1)
      (r.1 + 1, r.2)

/-- `Process::start` retry loop (part_015). -/
def procStartLoop (restartAttempts : Nat) (succeeds : Nat → Bool) : Nat × StartOutcome :=
  procStartAux succeeds restartAttempts 0

/-! ## The signal handler

`Utils::signalHandler` (src/Utils.cpp lines 14–24), installed for
`SIGINT`, `SIGQUIT` and `SIGHUP` by `TaskMaster::initializeProcesses`.
Its body is modelled as the list of actions it performs, in order.  The
`setFlag` constructor exists so that "the handler only sets an intent
flag" is expressible. -/

inductive SigAction where
  | logMsg (s : String)
  | reloadAll
  | stopAll
  | exitProc (code : Int)
  | setFlag (name : String)
deriving DecidableEq, Repr

/-- `Utils::signalHandler`: on `SIGHUP` it calls
`TaskMaster::reloadConfig()` directly; on any other signal it calls
`TaskMaster::stopAllProcesses()` and exits. -/
def signalHandler (sig : Int) : List SigAction :=
  if sig = SIGHUP then
    [SigAction.logMsg "SIGHUP signal received. Reloading configuration...",
     SigAction.reloadAll]
  else
    [SigAction.logMsg ("signal " ++ toString sig ++ " received. Stopping all processes..."),
     SigAction.stopAll,
     SigAction.logMsg "TaskMaster shutting down...",
     SigAction.exitProc sig]

/-- Whether an action invokes a lifecycle operation (reload, stop-all or
process exit) rather than async-safe flag/logging work. -/
def isLifecycleAction : SigAction → Bool
  | .reloadAll => true
  | .stopAll => true
  | .exitProc _ => true
  | _ => false

/-- Whether a handler body invokes any lifecycle operation. -/
def invokesLifecycle (actions : List SigAction) : Bool :=
  actions.any isLifecycleAction

/-! ## Specification predicates -/

/-- The field invariants that `Process::parseConfig` establishes and
`Process::applyChanges` maintains for a live snapshot. -/
def validSnapshot (p : Proc) : Prop :=
  0 ≤ p.instances ∧
  (p.autoRestart = "always" ∨ p.autoRestart = "never" ∨ p.autoRestart = "unexpected") ∧
  0 ≤ p.startTime ∧ 0 ≤ p.stopTime ∧ 0 ≤ p.restartAttempts

instance (p : Proc) : Decidable (validSnapshot p) := by
  unfold validSnapshot; infer_instance

/-- A candidate configuration that fails at least one field validation
of the diff engine. -/
def invalidCandidate (c : Config) : Prop :=
  c.instances < 0 ∨
  (c.autoRestart ≠ "always" ∧ c.autoRestart ≠ "never" ∧ c.autoRestart ≠ "unexpected") ∨
  c.startTime < 0 ∨ c.stopTime < 0 ∨ c.restartAttempts < 0 ∨
  signalMapFind c.stopSignal = none

instance (c : Config) : Decidable (invalidCandidate c) := by
  unfold invalidCandidate; infer_instance

/-- The candidate configuration is field-by-field equal to the current
snapshot (for the stop signal: its name resolves to the stored signal
number; for the environment: the parsed entry map equals the stored
map). -/
def ConfigMatches (c : Config) (p : Proc) : Prop :=
  c.command = p.command ∧ c.instances = p.instances ∧ c.autoStart = p.autoStart ∧
  c.autoRestart = p.autoRestart ∧ c.startTime = p.startTime ∧ c.stopTime = p.stopTime ∧
  c.restartAttempts = p.restartAttempts ∧
  signalMapFind c.stopSignal = some p.stopSignal ∧
  c.expectedExitCodes = p.expectedExitCodes ∧
  c.workingDirectory = p.workingDirectory ∧ c.umask = p.umaskInt ∧
  c.stdoutLog = p.stdoutLog ∧ c.stderrLog = p.stderrLog ∧
  envBuildCheck c.environmentVariables = p.environmentVariables

instance (c : Config) (p : Proc) : Decidable (ConfigMatches c p) := by
  unfold ConfigMatches; infer_instance

/-- `Process::getNumberOfInstances` (src/Process.cpp lines 438–440):
the running instance count reported by the Program is the number of
tracked pids, as an `int`. -/
def getNumberOfInstances (p : Proc) : Int := p.childPids.length

/-- Well-formedness of a system state: tracked pids are positive,
below the fresh-pid counter, distinct and present in the OS; the
instance target is nonnegative; and the process-accounting invariant
`0 ≤ runningInstanceCount ≤ instances` holds. -/
def WF (s : Sys) : Prop :=
  s.proc.childPids.Nodup ∧
  (∀ pid ∈ s.proc.childPids, 1 ≤ pid ∧ pid < s.nextPid ∧ s.os pid ≠ PState.gone) ∧
  1 ≤ s.nextPid ∧
  0 ≤ s.proc.instances ∧
  0 ≤ getNumberOfInstances s.proc ∧
  getNumberOfInstances s.proc ≤ s.proc.instances

instance (s : Sys) : Decidable (WF s) := by
  unfold WF; infer_instance

/-! ## Concrete fixtures

A small valid program configuration and the matching parsed snapshot,
with variants, used to evaluate the definitions at concrete inputs. -/

/-- A valid candidate configuration for a program named `web`. -/
def webConfig : Config :=
  { command := "/bin/sleep 60", instances := 3, autoStart := true,
    autoRestart := "never", startTime := 1, stopTime := 2, restartAttempts := 0,
    stopSignal := "SIGTERM", expectedExitCodes := [0], workingDirectory := "/tmp",
    umask := -1, stdoutLog := "/tmp/out.log", stderrLog := "/tmp/err.log",
    environmentVariables := [] }

/-- The snapshot `Process::parseConfig` produces from `webConfig`
(checked below by `parseConfig_webConfig`). -/
def webProc : Proc :=
  { name := "web", command := "/bin/sleep 60", instances := 3, autoStart := true,
    autoRestart := "never", startTime := 1, stopTime := 2, restartAttempts := 0,
    stopSignal := SIGTERM, expectedExitCodes := [0], workingDirectory := "/tmp",
    umaskInt := -1, stdoutLog := "/tmp/out.log", stderrLog := "/tmp/err.log",
    environmentVariables := [], childPids := [], monitorThreadRunning := false,
    userStopped := false }

/-- `webProc` with three tracked children. -/
def webProcRunning : Proc := { webProc with childPids := [1, 2, 3] }

/-- `webProc` tracking one pid that the OS has already reaped. -/
def webProcStale : Proc := { webProc with childPids := [5] }

/-- An OS state in which no pid exists. -/
def osAllGone : OS := fun _ => PState.gone

/-- An OS state in which every pid is running. -/
def osAllRunning : OS := fun _ => PState.running

/-- An environment oracle: every child dies from the stop signal. -/
def diesAll : Nat → Bool := fun _ => true

/-- The initial system state for `webProc`. -/
def webSys : Sys := ⟨webProc, osAllGone, 1⟩

/-- The system state after starting `webProc` (3 children spawned) and
then reloading with a candidate whose only change is `instances := 1`. -/
def webSysShrunk : Sys :=
  stepSys diesAll (stepSys diesAll webSys Step.start)
    (Step.reload { webConfig with instances := 1 })

/-! ## Helper lemmas -/

/-- Inversion for a successful `Except` bind. -/
theorem exceptBind_ok {α β : Type} {x : Except String α} {f : α → Except String β} {b : β}
    (h : x >>= f = .ok b) : ∃ a, x = .ok a ∧ f a = .ok b := by
  cases x with
  | error e => simp [Bind.bind, Except.bind] at h
  | ok a => exact ⟨a, rfl, by simpa [Bind.bind, Except.bind] using h⟩

/-- Every path through graceful-then-forceful stopping erases the pid
and leaves it reaped. -/
theorem stopOnePid_eq (t : Int) (d : Bool) (st : PState) :
    stopOnePid t d st = (true, PState.gone) := by
  unfold stopOnePid stopProcessG forceStopProcessM
  cases st <;> by_cases ht : t ≤ 0 <;> cases d <;> simp [ht]

/-- Effect of the inner `for` loop of `Process::stop` on `pidsToErase`
and on the OS: every nonzero pid of the list is erased and reaped,
zero pids are skipped. -/
theorem stopFold_spec (stopTime : Int) (dies : Nat → Bool) :
    ∀ (pids : List Nat) (er : List Nat) (os0 : OS),
      (∀ q, q ∈ (pids.foldl (stopFoldStep stopTime dies) (er, os0)).1 ↔
        q ∈ er ∨ (q ∈ pids ∧ q ≠ 0)) ∧
      (∀ q, (pids.foldl (stopFoldStep stopTime dies) (er, os0)).2 q =
        if q ∈ pids ∧ q ≠ 0 then PState.gone else os0 q) := by
  intro pids
  induction pids with
  | nil => intro er os0; simp
  | cons pid rest ih =>
    intro er os0
    rw [List.foldl_cons]
    by_cases hz : pid = 0
    · subst hz
      have h := ih er os0
      rw [show stopFoldStep stopTime dies (er, os0) 0 = (er, os0) by simp [stopFoldStep]]
      constructor
      · intro q
        rw [h.1 q]
        constructor
        · rintro (hq | ⟨hq1, hq2⟩)
          · exact Or.inl hq
          · exact Or.inr ⟨List.mem_cons_of_mem _ hq1, hq2⟩
        · rintro (hq | ⟨hq1, hq2⟩)
          · exact Or.inl hq
          · rcases List.mem_cons.mp hq1 with hq1 | hq1
            · exact absurd hq1 hq2
            · exact Or.inr ⟨hq1, hq2⟩
      · intro q
        rw [h.2 q]
        by_cases hq : q ∈ rest ∧ q ≠ 0
        · simp [hq, List.mem_cons_of_mem _ hq.1, hq.2]
        · have hq' : ¬(q ∈ 0 :: rest ∧ q ≠ 0) := by
            rintro ⟨hmem, hne⟩
            rcases List.mem_cons.mp hmem with h0 | h0
            · exact hne h0
            · exact hq ⟨h0, hne⟩
          simp only [hq, hq', if_false]
    · have hstep : stopFoldStep stopTime dies (er, os0) pid =
          (pid :: er, fun q => if q = pid then PState.gone else os0 q) := by
        simp [stopFoldStep, hz, stopOnePid_eq]
      rw [hstep]
      have h := ih (pid :: er) (fun q => if q = pid then PState.gone else os0 q)
      constructor
      · intro q
        rw [h.1 q]
        constructor
        · rintro (hq | ⟨hq1, hq2⟩)
          · rcases List.mem_cons.mp hq with hq | hq
            · exact Or.inr ⟨by simp [hq], by simp [hq, hz]⟩
            · exact Or.inl hq
          · exact Or.inr ⟨List.mem_cons_of_mem _ hq1, hq2⟩
        · rintro (hq | ⟨hq1, hq2⟩)
          · exact Or.inl (List.mem_cons_of_mem _ hq)
          · rcases List.mem_cons.mp hq1 with hq1 | hq1
            · exact Or.inl (by simp [hq1])
            · exact Or.inr ⟨hq1, hq2⟩
      · intro q
        rw [h.2 q]
        by_cases hqp : q = pid
        · simp [hqp, hz]
        · by_cases hq : q ∈ rest ∧ q ≠ 0
          · simp [hq, List.mem_cons_of_mem _ hq.1, hq.2]
          · have hq' : ¬(q ∈ pid :: rest ∧ q ≠ 0) := by
              rintro ⟨hmem, hne⟩
              rcases List.mem_cons.mp hmem with h0 | h0
              · exact hqp h0
              · exact hq ⟨h0, hne⟩
            simp only [hq, hq', if_false, if_neg hqp]

/-- A pass of the outer loop removes every tracked pid (under the
invariant that tracked pids are positive) and leaves each one reaped in
the OS. -/
theorem stopPass_spec (stopTime : Int) (dies : Nat → Bool) (pids : List Nat) (os : OS)
    (hpos : ∀ pid ∈ pids, pid ≠ 0) :
    (stopPass stopTime dies pids os).1 = [] ∧
    (∀ q ∈ pids, (stopPass stopTime dies pids os).2 q = PState.gone) := by
  have h := stopFold_spec stopTime dies pids [] os
  unfold stopPass
  constructor
  · rw [List.filter_eq_nil_iff]
    intro a ha
    have hmem : a ∈ (pids.foldl (stopFoldStep stopTime dies) ([], os)).1 :=
      (h.1 a).mpr (Or.inr ⟨ha, hpos a ha⟩)
    simp [List.contains, List.elem_iff, hmem]
  · intro q hq
    rw [h.2 q]
    simp [hq, hpos q hq]

/-- The part_011 retry loop performs `fuel + 1` attempts and ends in the
maximum-attempts branch whenever no attempt succeeds. -/
theorem tmStartAux_never (succeeds : Nat → Bool) (hfail : ∀ k, succeeds k = false) :
    ∀ fuel a, tmStartAux succeeds fuel a = (fuel + 1, .exhaustedStop) := by
  intro fuel
  induction fuel with
  | zero => intro a; simp [tmStartAux, hfail]
  | succ n ih => intro a; simp [tmStartAux, hfail, ih (a + 1)]

/-- The part_015 retry loop performs `max 1 fuel` attempts when no
attempt succeeds, reaching the maximum-attempts branch only at
`fuel = 0`. -/
theorem procStartAux_never (succeeds : Nat → Bool) (hfail : ∀ k, succeeds k = false) :
    ∀ fuel a, procStartAux succeeds fuel a =
      (max 1 fuel, if fuel = 0 then .exhaustedStop else .quietExit) := by
  intro fuel
  induction fuel with
  | zero => intro a; simp [procStartAux, hfail]
  | succ n ih =>
    intro a
    match n, ih with
    | 0, _ => simp [procStartAux, hfail]
    | m + 1, ih =>
      have h := ih (a + 1)
      simp [procStartAux, hfail] at h ⊢
      exact ⟨by rw [h], by rw [h]⟩

/-- C1: with `restartAttempts = 2` and no attempt ever reaching the
fully-running state, the retry loop of `TaskMaster::startProcess`
(part_011) performs 3 launch attempts and ends in the
maximum-attempts-reached branch (log + `stop`), exactly as the claim
states — but the retry loop of `Process::start` (part_015, the loop the
claim also cites) performs only 2 launch attempts and exits its `while`
without ever reaching the maximum-attempts branch: its strict guard
`attempts < restartAttempts` makes that branch dead code for every
`restartAttempts ≥ 1`. -/
theorem start_attempt_bound_divergence :
    tmStartProcess 2 (fun _ => false) = (3, StartOutcome.exhaustedStop) ∧
    procStartLoop 2 (fun _ => false) = (2, StartOutcome.quietExit) ∧
    (∀ rA : Nat, tmStartProcess rA (fun _ => false) = (rA + 1, StartOutcome.exhaustedStop)) ∧
    (∀ rA : Nat, procStartLoop rA (fun _ => false) =
      (max 1 rA, if rA = 0 then StartOutcome.exhaustedStop else StartOutcome.quietExit)) :=
  ⟨rfl, rfl,
   fun rA => tmStartAux_never (fun _ => false) (fun _ => rfl) rA 0,
   fun rA => procStartAux_never (fun _ => false) (fun _ => rfl) rA 0⟩

/-- C5 counterexample: the claim states the installed signal handler
only sets an intent flag and never invokes a lifecycle operation from
signal context; but on `SIGHUP` the handler of `Utils::signalHandler`
invokes a lifecycle operation (`TaskMaster::reloadConfig`) directly. -/
theorem signalHandler_invokes_lifecycle :
    invokesLifecycle (signalHandler SIGHUP) = true := by decide

/-- C5 amended: the signal handler performs the lifecycle work directly
in signal context — on `SIGHUP` it logs and calls
`TaskMaster::reloadConfig()`; on `SIGINT` and `SIGQUIT` it logs, calls
`TaskMaster::stopAllProcesses()` and exits with the signal number.  No
intent flag is set by any of the three handlers. -/
theorem signalHandler_direct_lifecycle :
    signalHandler SIGHUP =
      [SigAction.logMsg "SIGHUP signal received. Reloading configuration...",
       SigAction.reloadAll] ∧
    signalHandler SIGINT =
      [SigAction.logMsg "signal 2 received. Stopping all processes...",
       SigAction.stopAll,
       SigAction.logMsg "TaskMaster shutting down...",
       SigAction.exitProc SIGINT] ∧
    signalHandler SIGQUIT =
      [SigAction.logMsg "signal 3 received. Stopping all processes...",
       SigAction.stopAll,
       SigAction.logMsg "TaskMaster shutting down...",
       SigAction.exitProc SIGQUIT] ∧
    (signalHandler SIGHUP ++ signalHandler SIGINT ++ signalHandler SIGQUIT).all
      (fun a => match a with | SigAction.setFlag _ => false | _ => true) = true := by
  refine ⟨by decide, by decide, by decide, by decide⟩

/-- C10: for an `environment_variables` entry with no `=` character (of
any realistic `std::string` length), parsing does not reject the entry:
`find` returns `npos`, `substr(0, npos)` yields the whole string, and
`substr(npos + 1)` wraps the `size_t` position to `0` and also yields
the whole string — so both `Process::parseConfig` and
`ConfigManager::checkEnvironmentVariables` insert a binding whose key
and value are both the entire entry. -/
theorem env_entry_without_delimiter (s : String) (h : '=' ∉ s.data)
    (hlen : s.data.length ≤ npos) :
    parseEnvEntry s = (s, s) ∧ parseEnvEntryCheck s = (s, s) ∧
    envBuild [s] = [(s, s)] ∧ envBuildCheck [s] = [(s, s)] := by
  have hfind : cppFind s '=' = npos := by
    unfold cppFind
    have hnone : s.data.findIdx? (· = '=') = none := by
      rw [List.findIdx?_eq_none_iff]
      intro x hx
      by_contra hcontra
      simp at hcontra
      exact h (hcontra ▸ hx)
    rw [hnone]
  have htake : s.data.take npos = s.data := List.take_of_length_le hlen
  have hmod : ((npos + 1) % 2 ^ 64) = 0 := by
    have hsum : npos + 1 = 2 ^ 64 := by unfold npos; omega
    rw [hsum, Nat.mod_self]
  have hentry : parseEnvEntry s = (s, s) := by
    unfold parseEnvEntry
    rw [hfind]
    show (⟨s.data.take npos⟩, ⟨s.data.drop ((npos + 1) % 2 ^ 64)⟩) = (s, s)
    rw [hmod, htake, List.drop_zero]
  have hentry2 : parseEnvEntryCheck s = (s, s) := by
    unfold parseEnvEntryCheck
    rw [hfind]
    show (⟨s.data.take npos⟩, ⟨s.data.drop ((npos + 1) % 2 ^ 64)⟩) = (s, s)
    rw [hmod, htake, List.drop_zero]
  refine ⟨hentry, hentry2, ?_, ?_⟩
  · unfold envBuild
    simp [hentry, envInsert]
  · unfold envBuildCheck
    simp [hentry2, envInsert]

/-- Witness for the C10 theorem at the concrete entry `"PATH"`. -/
theorem env_entry_without_delimiter_witness :
    ('=' ∉ "PATH".data) ∧ parseEnvEntry "PATH" = ("PATH", "PATH") ∧
    envBuild ["PATH"] = [("PATH", "PATH")] := by
  have hmem : '=' ∉ "PATH".data := by decide
  have hlen : "PATH".data.length ≤ npos := by decide
  have h := env_entry_without_delimiter "PATH" hmem hlen
  exact ⟨hmem, h.1, h.2.2.1⟩

/-- The fixture snapshot is exactly what `Process::parseConfig`
produces from the fixture configuration. -/
theorem parseConfig_webConfig : parseConfig "web" webConfig = .ok webProc := rfl

/-- C3: for a reaped child exit handled by `Process::handleChildExit`
(the pid is tracked) while the suppress-auto-restart flag
(`userStopped`) is clear: with `autoRestart == "never"` no relaunch is
invoked; with `autoRestart == "always"` `start` is invoked; with
`autoRestart == "unexpected"` `start` is invoked exactly when the exit
code is not a member of `expectedExitCodes`. -/
theorem handleChildExit_policy (p : Proc) (os : OS) (fresh pid : Nat) (k : ExitKind)
    (hs : p.userStopped = false) (hm : p.childPids.contains pid = true) :
    (p.autoRestart = "never" → (handleChildExit p os fresh pid k).2 = false) ∧
    (p.autoRestart = "always" → (handleChildExit p os fresh pid k).2 = true) ∧
    (p.autoRestart = "unexpected" →
      (handleChildExit p os fresh pid k).2 =
        !p.expectedExitCodes.contains (exitStatusOf k)) := by
  have hmem : pid ∈ p.childPids := by simpa using hm
  unfold handleChildExit
  refine ⟨?_, ?_, ?_⟩ <;> intro har <;> simp [hmem, hs, har]
  by_cases hexp : exitStatusOf k ∈ p.expectedExitCodes <;> simp [hexp]

/-- Witness for the C3 theorem: a tracked pid of an `always` program
with the flag clear triggers a relaunch. -/
theorem handleChildExit_policy_witness :
    ({ webProcRunning with autoRestart := "always" } : Proc).userStopped = false ∧
    ({ webProcRunning with autoRestart := "always" } : Proc).childPids.contains 2 = true ∧
    (handleChildExit { webProcRunning with autoRestart := "always" } osAllRunning 10 2
      (ExitKind.exited 0)).2 = true :=
  ⟨rfl, by decide,
   (handleChildExit_policy { webProcRunning with autoRestart := "always" } osAllRunning 10 2
      (ExitKind.exited 0) rfl (by decide)).2.1 rfl⟩

/-! ### Inversion lemmas for the diff-engine checks -/

/-- A successful `checkCommand` leaves the Program untouched. -/
theorem checkCommand_ok {c : Config} {p : Proc} {ch : Changes} {r : Proc × Changes}
    (h : checkCommand c p ch = .ok r) : r.1 = p := by
  unfold checkCommand at h
  split at h <;> (injection h with h2; subst h2; rfl)

/-- A successful `checkInstances` leaves the Program untouched and
implies the candidate count is unchanged or nonnegative. -/
theorem checkInstances_ok {c : Config} {p : Proc} {ch : Changes} {r : Proc × Changes}
    (h : checkInstances c p ch = .ok r) :
    r.1 = p ∧ (c.instances = p.instances ∨ 0 ≤ c.instances) := by
  unfold checkInstances at h
  split at h
  · split at h
    · exact absurd h (by simp)
    · injection h with h2; subst h2; exact ⟨rfl, Or.inr (by omega)⟩
  · injection h with h2; subst h2
    exact ⟨rfl, Or.inl (by omega)⟩

/-- A successful `checkAutoStart` leaves the Program untouched. -/
theorem checkAutoStart_ok {c : Config} {p : Proc} {ch : Changes} {r : Proc × Changes}
    (h : checkAutoStart c p ch = .ok r) : r.1 = p := by
  unfold checkAutoStart at h
  split at h <;> (injection h with h2; subst h2; rfl)

/-- A successful `checkAutoRestart` leaves the Program untouched and
implies the candidate policy is unchanged or one of the three valid
values. -/
theorem checkAutoRestart_ok {c : Config} {p : Proc} {ch : Changes} {r : Proc × Changes}
    (h : checkAutoRestart c p ch = .ok r) :
    r.1 = p ∧ (c.autoRestart = p.autoRestart ∨ c.autoRestart = "always" ∨
      c.autoRestart = "never" ∨ c.autoRestart = "unexpected") := by
  unfold checkAutoRestart at h
  split at h
  · split at h
    · exact absurd h (by simp)
    · injection h with h2; subst h2
      refine ⟨rfl, ?_⟩
      rename_i hvalid
      by_cases h1 : c.autoRestart = "always"
      · exact Or.inr (Or.inl h1)
      · by_cases h2 : c.autoRestart = "never"
        · exact Or.inr (Or.inr (Or.inl h2))
        · by_cases h3 : c.autoRestart = "unexpected"
          · exact Or.inr (Or.inr (Or.inr h3))
          · exact absurd ⟨h1, h2, h3⟩ hvalid
  · injection h with h2; subst h2
    rename_i heq
    simp at heq
    exact ⟨rfl, Or.inl heq⟩

/-- A successful `checkStartTime` leaves the Program untouched and
implies the candidate value is unchanged or nonnegative. -/
theorem checkStartTime_ok {c : Config} {p : Proc} {ch : Changes} {r : Proc × Changes}
    (h : checkStartTime c p ch = .ok r) :
    r.1 = p ∧ (c.startTime = p.startTime ∨ 0 ≤ c.startTime) := by
  unfold checkStartTime at h
  split at h
  · split at h
    · exact absurd h (by simp)
    · injection h with h2; subst h2; exact ⟨rfl, Or.inr (by omega)⟩
  · injection h with h2; subst h2
    exact ⟨rfl, Or.inl (by omega)⟩

/-- A successful `checkStopTime` leaves the Program untouched and
implies the candidate value is unchanged or nonnegative. -/
theorem checkStopTime_ok {c : Config} {p : Proc} {ch : Changes} {r : Proc × Changes}
    (h : checkStopTime c p ch = .ok r) :
    r.1 = p ∧ (c.stopTime = p.stopTime ∨ 0 ≤ c.stopTime) := by
  unfold checkStopTime at h
  split at h
  · split at h
    · exact absurd h (by simp)
    · injection h with h2; subst h2; exact ⟨rfl, Or.inr (by omega)⟩
  · injection h with h2; subst h2
    exact ⟨rfl, Or.inl (by omega)⟩

/-- A successful `checkRestartAttempts` leaves the Program untouched
and implies the candidate value is unchanged or nonnegative. -/
theorem checkRestartAttempts_ok {c : Config} {p : Proc} {ch : Changes} {r : Proc × Changes}
    (h : checkRestartAttempts c p ch = .ok r) :
    r.1 = p ∧ (c.restartAttempts = p.restartAttempts ∨ 0 ≤ c.restartAttempts) := by
  unfold checkRestartAttempts at h
  split at h
  · split at h
    · exact absurd h (by simp)
    · injection h with h2; subst h2; exact ⟨rfl, Or.inr (by omega)⟩
  · injection h with h2; subst h2
    exact ⟨rfl, Or.inl (by omega)⟩

/-- A successful `checkStopSignal` leaves the Program untouched and
implies the candidate signal name is recognized. -/
theorem checkStopSignal_ok {c : Config} {p : Proc} {ch : Changes} {r : Proc × Changes}
    (h : checkStopSignal c p ch = .ok r) :
    r.1 = p ∧ (signalMapFind c.stopSignal).isSome := by
  unfold checkStopSignal at h
  split at h
  · exact absurd h (by simp)
  · rename_i sig heq
    constructor
    · split at h <;> (injection h with h2; subst h2; rfl)
    · simp [heq]

/-- A successful `checkExpectedExitCodes` leaves the Program
untouched. -/
theorem checkExpectedExitCodes_ok {c : Config} {p : Proc} {ch : Changes} {r : Proc × Changes}
    (h : checkExpectedExitCodes c p ch = .ok r) : r.1 = p := by
  unfold checkExpectedExitCodes at h
  split at h <;> (injection h with h2; subst h2; rfl)

/-- A successful `checkWorkingDirectory` leaves the Program
untouched. -/
theorem checkWorkingDirectory_ok {c : Config} {p : Proc} {ch : Changes} {r : Proc × Changes}
    (h : checkWorkingDirectory c p ch = .ok r) : r.1 = p := by
  unfold checkWorkingDirectory at h
  split at h <;> (injection h with h2; subst h2; rfl)

/-- A successful `checkUmask` leaves the Program untouched. -/
theorem checkUmask_ok {c : Config} {p : Proc} {ch : Changes} {r : Proc × Changes}
    (h : checkUmask c p ch = .ok r) : r.1 = p := by
  unfold checkUmask at h
  split at h <;> (injection h with h2; subst h2; rfl)

/-- A successful `checkStdoutLog` leaves the Program untouched. -/
theorem checkStdoutLog_ok {c : Config} {p : Proc} {ch : Changes} {r : Proc × Changes}
    (h : checkStdoutLog c p ch = .ok r) : r.1 = p := by
  unfold checkStdoutLog at h
  split at h <;> (injection h with h2; subst h2; rfl)

/-- A successful `checkStderrLog` leaves the Program untouched. -/
theorem checkStderrLog_ok {c : Config} {p : Proc} {ch : Changes} {r : Proc × Changes}
    (h : checkStderrLog c p ch = .ok r) : r.1 = p := by
  unfold checkStderrLog at h
  split at h <;> (injection h with h2; subst h2; rfl)

/-- A successful `checkEnvironmentVariables` leaves the Program
untouched. -/
theorem checkEnvironmentVariables_ok {c : Config} {p : Proc} {ch : Changes} {r : Proc × Changes}
    (h : checkEnvironmentVariables c p ch = .ok r) : r.1 = p := by
  unfold checkEnvironmentVariables at h
  simp only [] at h
  split at h <;> (injection h with h2; subst h2; rfl)

/-- Facts extracted from a successful `detectChanges` run: the Program
is returned unchanged, and every field validation passed (assuming
nothing about the candidate values a diff skipped because they were
unchanged). -/
theorem detectChanges_ok_facts {c : Config} {p : Proc} {r : Proc × Changes}
    (h : detectChanges c p = .ok r) :
    r.1 = p ∧
    (c.instances = p.instances ∨ 0 ≤ c.instances) ∧
    (c.autoRestart = p.autoRestart ∨ c.autoRestart = "always" ∨
      c.autoRestart = "never" ∨ c.autoRestart = "unexpected") ∧
    (c.startTime = p.startTime ∨ 0 ≤ c.startTime) ∧
    (c.stopTime = p.stopTime ∨ 0 ≤ c.stopTime) ∧
    (c.restartAttempts = p.restartAttempts ∨ 0 ≤ c.restartAttempts) ∧
    (signalMapFind c.stopSignal).isSome := by
  unfold detectChanges at h
  obtain ⟨r1, h1, h⟩ := exceptBind_ok h
  obtain ⟨r2, h2, h⟩ := exceptBind_ok h
  obtain ⟨r3, h3, h⟩ := exceptBind_ok h
  obtain ⟨r4, h4, h⟩ := exceptBind_ok h
  obtain ⟨r5, h5, h⟩ := exceptBind_ok h
  obtain ⟨r6, h6, h⟩ := exceptBind_ok h
  obtain ⟨r7, h7, h⟩ := exceptBind_ok h
  obtain ⟨r8, h8, h⟩ := exceptBind_ok h
  obtain ⟨r9, h9, h⟩ := exceptBind_ok h
  obtain ⟨r10, h10, h⟩ := exceptBind_ok h
  obtain ⟨r11, h11, h⟩ := exceptBind_ok h
  obtain ⟨r12, h12, h⟩ := exceptBind_ok h
  obtain ⟨r13, h13, h⟩ := exceptBind_ok h
  obtain ⟨r14, h14, h⟩ := exceptBind_ok h
  have e1 := checkCommand_ok h1
  rw [e1] at h2
  have e2 := checkInstances_ok h2
  rw [e2.1] at h3
  have e3 := checkAutoStart_ok h3
  rw [e3] at h4
  have e4 := checkAutoRestart_ok h4
  rw [e4.1] at h5
  have e5 := checkStartTime_ok h5
  rw [e5.1] at h6
  have e6 := checkStopTime_ok h6
  rw [e6.1] at h7
  have e7 := checkRestartAttempts_ok h7
  rw [e7.1] at h8
  have e8 := checkStopSignal_ok h8
  rw [e8.1] at h9
  have e9 := checkExpectedExitCodes_ok h9
  rw [e9] at h10
  have e10 := checkWorkingDirectory_ok h10
  rw [e10] at h11
  have e11 := checkUmask_ok h11
  rw [e11] at h12
  have e12 := checkStdoutLog_ok h12
  rw [e12] at h13
  have e13 := checkStderrLog_ok h13
  rw [e13] at h14
  have e14 := checkEnvironmentVariables_ok h14
  have hr : r = r14 := by
    simpa [Pure.pure, Except.pure] using h.symm
  exact ⟨by rw [hr, e14], e2.2, e4.2, e5.2, e6.2, e7.2, e8.2⟩

/-- C6: for a valid current snapshot and a candidate configuration
failing field validation (negative `instances`, unrecognized
`auto_restart` value, negative timing or attempt fields, or an
unrecognized `stop_signal`), `Process::reloadConfig` raises
`InvalidConfig` (the validation exception propagates out of
`detectChanges` before `applyChanges` runs) and leaves every field of
the previous snapshot — and all children — unchanged, performing no
lifecycle transition. -/
theorem reload_invalid_config_keeps_snapshot (p : Proc) (c : Config) (os : OS)
    (dies : Nat → Bool) (fresh : Nat) (hv : validSnapshot p) (hi : invalidCandidate c) :
    ∃ e, reloadConfigFull p os dies fresh c = ((p, os, fresh), some e, []) := by
  cases hd : detectChanges c p with
  | error e => exact ⟨e, by simp [reloadConfigFull, hd]⟩
  | ok r =>
    exfalso
    obtain ⟨-, hinst, har, hst, hsp, hra, hsig⟩ := detectChanges_ok_facts hd
    obtain ⟨hv1, hv2, hv3, hv4, hv5⟩ := hv
    rcases hi with hi | hi | hi | hi | hi | hi
    · rcases hinst with he | he <;> omega
    · obtain ⟨hi1, hi2, hi3⟩ := hi
      rcases har with he | he | he | he
      · rcases hv2 with h2 | h2 | h2
        · exact hi1 (he.trans h2)
        · exact hi2 (he.trans h2)
        · exact hi3 (he.trans h2)
      · exact hi1 he
      · exact hi2 he
      · exact hi3 he
    · rcases hst with he | he <;> omega
    · rcases hsp with he | he <;> omega
    · rcases hra with he | he <;> omega
    · rw [hi] at hsig
      simp at hsig

/-- Witness for the C6 theorem: a candidate with `instances := -2`
against the valid fixture snapshot is rejected with the snapshot
intact. -/
theorem reload_invalid_config_keeps_snapshot_witness :
    validSnapshot webProc ∧ invalidCandidate { webConfig with instances := -2 } ∧
    ∃ e, reloadConfigFull webProc osAllGone diesAll 1 { webConfig with instances := -2 } =
      ((webProc, osAllGone, 1), some e, []) :=
  ⟨by decide, by decide,
   reload_invalid_config_keeps_snapshot webProc { webConfig with instances := -2 }
     osAllGone diesAll 1 (by decide) (by decide)⟩

/-! ### No-change behaviour of the diff-engine checks -/

/-- `checkCommand` inserts nothing when the field is unchanged. -/
theorem checkCommand_self {c : Config} {p : Proc} (h : c.command = p.command) :
    ∀ ch, checkCommand c p ch = .ok (p, ch) := by
  intro ch; unfold checkCommand; simp [h]

/-- `checkInstances` inserts nothing when the field is unchanged. -/
theorem checkInstances_self {c : Config} {p : Proc} (h : c.instances = p.instances) :
    ∀ ch, checkInstances c p ch = .ok (p, ch) := by
  intro ch; unfold checkInstances; simp [h]

/-- `checkAutoStart` inserts nothing when the field is unchanged. -/
theorem checkAutoStart_self {c : Config} {p : Proc} (h : c.autoStart = p.autoStart) :
    ∀ ch, checkAutoStart c p ch = .ok (p, ch) := by
  intro ch; unfold checkAutoStart; simp [h]

/-- `checkAutoRestart` inserts nothing when the field is unchanged. -/
theorem checkAutoRestart_self {c : Config} {p : Proc} (h : c.autoRestart = p.autoRestart) :
    ∀ ch, checkAutoRestart c p ch = .ok (p, ch) := by
  intro ch; unfold checkAutoRestart; simp [h]

/-- `checkStartTime` inserts nothing when the field is unchanged. -/
theorem checkStartTime_self {c : Config} {p : Proc} (h : c.startTime = p.startTime) :
    ∀ ch, checkStartTime c p ch = .ok (p, ch) := by
  intro ch; unfold checkStartTime; simp [h]

/-- `checkStopTime` inserts nothing when the field is unchanged. -/
theorem checkStopTime_self {c : Config} {p : Proc} (h : c.stopTime = p.stopTime) :
    ∀ ch, checkStopTime c p ch = .ok (p, ch) := by
  intro ch; unfold checkStopTime; simp [h]

/-- `checkRestartAttempts` inserts nothing when the field is
unchanged. -/
theorem checkRestartAttempts_self {c : Config} {p : Proc}
    (h : c.restartAttempts = p.restartAttempts) :
    ∀ ch, checkRestartAttempts c p ch = .ok (p, ch) := by
  intro ch; unfold checkRestartAttempts; simp [h]

/-- `checkStopSignal` inserts nothing when the candidate name resolves
to the stored signal number. -/
theorem checkStopSignal_self {c : Config} {p : Proc}
    (h : signalMapFind c.stopSignal = some p.stopSignal) :
    ∀ ch, checkStopSignal c p ch = .ok (p, ch) := by
  intro ch; unfold checkStopSignal; rw [h]; simp

/-- `checkExpectedExitCodes` inserts nothing when the field is
unchanged. -/
theorem checkExpectedExitCodes_self {c : Config} {p : Proc}
    (h : c.expectedExitCodes = p.expectedExitCodes) :
    ∀ ch, checkExpectedExitCodes c p ch = .ok (p, ch) := by
  intro ch; unfold checkExpectedExitCodes; simp [h]

/-- `checkWorkingDirectory` inserts nothing when the field is
unchanged. -/
theorem checkWorkingDirectory_self {c : Config} {p : Proc}
    (h : c.workingDirectory = p.workingDirectory) :
    ∀ ch, checkWorkingDirectory c p ch = .ok (p, ch) := by
  intro ch; unfold checkWorkingDirectory; simp [h]

/-- `checkUmask` inserts nothing when the field is unchanged. -/
theorem checkUmask_self {c : Config} {p : Proc} (h : c.umask = p.umaskInt) :
    ∀ ch, checkUmask c p ch = .ok (p, ch) := by
  intro ch; unfold checkUmask; simp [h]

/-- `checkStdoutLog` inserts nothing when the field is unchanged. -/
theorem checkStdoutLog_self {c : Config} {p : Proc} (h : c.stdoutLog = p.stdoutLog) :
    ∀ ch, checkStdoutLog c p ch = .ok (p, ch) := by
  intro ch; unfold checkStdoutLog; simp [h]

/-- `checkStderrLog` inserts nothing when the field is unchanged. -/
theorem checkStderrLog_self {c : Config} {p : Proc} (h : c.stderrLog = p.stderrLog) :
    ∀ ch, checkStderrLog c p ch = .ok (p, ch) := by
  intro ch; unfold checkStderrLog; simp [h]

/-- `checkEnvironmentVariables` inserts nothing when the parsed
candidate map equals the stored map. -/
theorem checkEnvironmentVariables_self {c : Config} {p : Proc}
    (h : envBuildCheck c.environmentVariables = p.environmentVariables) :
    ∀ ch, checkEnvironmentVariables c p ch = .ok (p, ch) := by
  intro ch; unfold checkEnvironmentVariables; simp [h]

/-- C8: the diff engine is pure — running `Process::detectChanges`
twice on the same candidate and Program yields equal change sets;
running it on a candidate equal to the current snapshot yields the
empty change set (and no validation error); and no successful run
mutates any field of the Program (the threaded Program state is
returned unchanged). -/
theorem detectChanges_pure (c : Config) (p : Proc) :
    detectChanges c p = detectChanges c p ∧
    (ConfigMatches c p → detectChanges c p = .ok (p, [])) ∧
    (∀ r, detectChanges c p = .ok r → r.1 = p) := by
  refine ⟨rfl, ?_, fun r h => (detectChanges_ok_facts h).1⟩
  intro hm
  obtain ⟨h1, h2, h3, h4, h5, h6, h7, h8, h9, h10, h11, h12, h13, h14⟩ := hm
  simp [detectChanges, checkCommand_self h1, checkInstances_self h2,
    checkAutoStart_self h3, checkAutoRestart_self h4, checkStartTime_self h5,
    checkStopTime_self h6, checkRestartAttempts_self h7, checkStopSignal_self h8,
    checkExpectedExitCodes_self h9, checkWorkingDirectory_self h10, checkUmask_self h11,
    checkStdoutLog_self h12, checkStderrLog_self h13, checkEnvironmentVariables_self h14,
    Bind.bind, Except.bind, Pure.pure, Except.pure]

/-- Witness for the C8 theorem: the fixture candidate matches the
fixture snapshot, and the diff is empty with the snapshot returned
unchanged. -/
theorem detectChanges_pure_witness :
    ConfigMatches webConfig webProc ∧ detectChanges webConfig webProc = .ok (webProc, []) :=
  ⟨by decide, (detectChanges_pure webConfig webProc).2.1 (by decide)⟩

/-! ### Reload-partition lemmas -/

set_option maxHeartbeats 1000000 in
/-- `Process::applyChanges` only writes configuration fields; the
tracked pid list is untouched. -/
theorem applyOneChange_childPids (p : Proc) (kv : String × ChangeVal) :
    (applyOneChange p kv).childPids = p.childPids := by
  obtain ⟨key, val⟩ := kv
  cases val <;>
    simp only [applyOneChange, apply_ite (fun q : Proc => q.childPids), ite_self]

/-- `Process::applyChanges` leaves `childPids` unchanged. -/
theorem applyChanges_childPids (changes : Changes) :
    ∀ p : Proc, (applyChanges p changes).childPids = p.childPids := by
  induction changes with
  | nil => intro p; rfl
  | cons kv rest ih =>
    intro p
    unfold applyChanges
    rw [List.foldl_cons]
    have := ih (applyOneChange p kv)
    unfold applyChanges at this
    rw [this, applyOneChange_childPids]

/-- Under the positive-pid invariant, `Process::stop` terminates. -/
theorem stopP_total (p : Proc) (os : OS) (dies : Nat → Bool)
    (hpos : ∀ pid ∈ p.childPids, pid ≠ 0) : ∃ r, stopP p os dies = some r := by
  by_cases h0 : getRunningChildCount p os = 0
  · exact ⟨(p, os), by simp [stopP, h0]⟩
  · refine ⟨({ p with userStopped := false, childPids := [] },
      (stopPass p.stopTime dies p.childPids os).2), ?_⟩
    simp [stopP, h0, (stopPass_spec p.stopTime dies p.childPids os hpos).1]

/-- A single-key change set requires a restart exactly for the keys in
the `restartKeys` list. -/
theorem requireRestart_single_mem (key : String) (v : ChangeVal) (h : key ∈ restartKeys) :
    changesRequireRestart [(key, v)] = true := by
  fin_cases h <;> rfl

/-- A single-key change set on any of the keys missing from
`restartKeys` does not require a restart. -/
theorem requireRestart_single_dynamic (key : String) (v : ChangeVal)
    (h : key = "stop_signal" ∨ key = "instances" ∨ key = "umask" ∨
      key = "expected_exit_codes") :
    changesRequireRestart [(key, v)] = false := by
  rcases h with h | h | h | h <;> subst h <;> rfl

/-- C2 counterexample: the claim classifies `stopSignal` as
restart-required; but `stop_signal` is absent from the `restartKeys`
list of `Process::changesRequireRestart`, so a reload whose only change
is the stop signal performs no stop and no start — it merely updates
the snapshot (the new signal number is applied for future stops). -/
theorem reload_stop_signal_is_dynamic :
    detectChanges { webConfig with stopSignal := "SIGKILL" } webProc =
      .ok (webProc, [("stop_signal", ChangeVal.str "SIGKILL")]) ∧
    (reloadConfigFull webProc osAllGone diesAll 1
      { webConfig with stopSignal := "SIGKILL" }).2.2 = [] ∧
    (reloadConfigFull webProc osAllGone diesAll 1
      { webConfig with stopSignal := "SIGKILL" }).1.1.stopSignal = SIGKILL :=
  ⟨rfl, rfl, rfl⟩

/-- C2 amended: for a reload whose detected change set contains exactly
one changed field: if that field is one of the ten keys of
`restartKeys` (`command`, `auto_start`, `auto_restart`,
`working_directory`, `start_time`, `stop_time`, `restart_attempts`,
`environment_variables`, `stdout_log`, `stderr_log`) the Program
performs exactly one stop followed by one start; if it is
`stop_signal`, `instances`, `umask` or `expected_exit_codes`, no child
process is stopped or started. -/
theorem reload_single_change_partition (p : Proc) (os : OS) (dies : Nat → Bool)
    (fresh : Nat) (c : Config) (key : String) (v : ChangeVal)
    (hpos : ∀ pid ∈ p.childPids, pid ≠ 0)
    (hd : detectChanges c p = .ok (p, [(key, v)])) :
    (key ∈ restartKeys →
      (reloadConfigFull p os dies fresh c).2.2 = [LifeEvent.stopEv, LifeEvent.startEv]) ∧
    (key = "stop_signal" ∨ key = "instances" ∨ key = "umask" ∨
        key = "expected_exit_codes" →
      LifeEvent.stopEv ∉ (reloadConfigFull p os dies fresh c).2.2 ∧
      LifeEvent.startEv ∉ (reloadConfigFull p os dies fresh c).2.2) := by
  constructor
  · intro hkey
    have hreq := requireRestart_single_mem key v hkey
    have hpos3 : ∀ pid ∈ ({ applyChanges p [(key, v)] with userStopped := true} : Proc).childPids,
        pid ≠ 0 := by
      intro pid hpid
      exact hpos pid (by rwa [applyChanges_childPids] at hpid)
    obtain ⟨r, hr⟩ := stopP_total _ os dies hpos3
    simp [reloadConfigFull, hd, hreq, hr]
  · intro hkey
    have hreq := requireRestart_single_dynamic key v hkey
    have hevents : (reloadConfigFull p os dies fresh c).2.2 =
        updateDinamicallyWithoutRestarting [(key, v)] := by
      simp [reloadConfigFull, hd, hreq]
    rw [hevents]
    rcases hkey with h | h | h | h <;> subst h <;> simp [updateDinamicallyWithoutRestarting]

/-- Witness for the C2 amended theorem: a command-only change triggers
exactly one stop followed by one start. -/
theorem reload_single_change_partition_witness :
    detectChanges { webConfig with command := "/bin/sleep 120" } webProc =
      .ok (webProc, [("command", ChangeVal.str "/bin/sleep 120")]) ∧
    (reloadConfigFull webProc osAllGone diesAll 1
      { webConfig with command := "/bin/sleep 120" }).2.2 =
      [LifeEvent.stopEv, LifeEvent.startEv] :=
  ⟨rfl,
   (reload_single_change_partition webProc osAllGone diesAll 1
      { webConfig with command := "/bin/sleep 120" } "command"
      (ChangeVal.str "/bin/sleep 120") (by decide) rfl).1 (by decide)⟩

/-- C4 counterexample: the claim states that after `stop` returns the
`childPids` sequence is always empty, including when some tracked pids
are already reaped; but for a Program tracking one already-reaped pid,
`Process::stop` takes the `getRunningChildCount() == 0` early return
and comes back with `childPids` still equal to `[5]`. -/
theorem stop_stale_pid_not_cleared :
    ((stopP webProcStale osAllGone diesAll).map (fun r => r.1.childPids)) = some [5] := rfl

/-- C4 amended: under the invariant that tracked pids are positive,
`stop` always returns, and afterwards no child of the Program remains
running (every tracked pid is reaped in the OS); `childPids` is empty
whenever at least one tracked pid still existed when `stop` was
invoked, while if no tracked pid existed `stop` returns immediately and
leaves the Program (including a possibly nonempty `childPids`) and the
OS unchanged. -/
theorem stop_reaps_all_children (p : Proc) (os : OS) (dies : Nat → Bool)
    (hpos : ∀ pid ∈ p.childPids, pid ≠ 0) :
    ∃ p' os', stopP p os dies = some (p', os') ∧
      (∀ pid ∈ p.childPids, os' pid = PState.gone) ∧
      (getRunningChildCount p os ≠ 0 → p'.childPids = []) ∧
      (getRunningChildCount p os = 0 → p' = p ∧ os' = os) := by
  by_cases h0 : getRunningChildCount p os = 0
  · refine ⟨p, os, ?_, ?_, fun hne => absurd h0 hne, fun _ => ⟨rfl, rfl⟩⟩
    · simp [stopP, h0]
    · intro pid hpid
      have := List.countP_eq_zero.mp h0 pid hpid
      simp [pidExists] at this
      exact this
  · have hpass := stopPass_spec p.stopTime dies p.childPids os hpos
    refine ⟨{ p with userStopped := false, childPids := [] },
      (stopPass p.stopTime dies p.childPids os).2, ?_, ?_, fun _ => rfl, fun he => absurd he h0⟩
    · simp [stopP, h0, hpass.1]
    · exact hpass.2

/-- Witness for the C4 amended theorem: a Program with three live
children is fully stopped, with every child reaped. -/
theorem stop_reaps_all_children_witness :
    (∀ pid ∈ webProcRunning.childPids, pid ≠ 0) ∧
    (∃ p' os', stopP webProcRunning osAllRunning diesAll = some (p', os') ∧
      (∀ pid ∈ webProcRunning.childPids, os' pid = PState.gone) ∧
      (getRunningChildCount webProcRunning osAllRunning ≠ 0 → p'.childPids = []) ∧
      (getRunningChildCount webProcRunning osAllRunning = 0 →
        p' = webProcRunning ∧ os' = osAllRunning)) :=
  ⟨by decide, stop_reaps_all_children webProcRunning osAllRunning diesAll (by decide)⟩

/-- C9: `stop` is idempotent — whenever a `stop` invocation returns,
invoking `stop` again from the resulting state returns the very same
state; the second invocation takes the `getRunningChildCount() == 0`
early return (its running-child count is zero), so it performs no
child-process work and raises no error. -/
theorem stop_idempotent (p : Proc) (os : OS) (dies : Nat → Bool) (p' : Proc) (os' : OS)
    (h : stopP p os dies = some (p', os')) :
    stopP p' os' dies = some (p', os') ∧ getRunningChildCount p' os' = 0 := by
  unfold stopP at h
  by_cases h0 : getRunningChildCount p os = 0
  · simp [h0] at h
    obtain ⟨hp, hos⟩ := h
    subst hp; subst hos
    exact ⟨by simp [stopP, h0], h0⟩
  · simp [h0] at h
    by_cases hpass : (stopPass p.stopTime dies p.childPids os).1 = []
    · simp [hpass] at h
      obtain ⟨hp, hos⟩ := h
      subst hp; subst hos
      constructor
      · simp [stopP, getRunningChildCount]
      · simp [getRunningChildCount]
    · simp [hpass] at h

/-! ### Preservation of the process-accounting invariant -/

/-- Under the tracked-pids-exist invariant, the running-child count of
`kill(pid, 0)` probes equals the tracked-pid count. -/
theorem getRunningChildCount_eq_length (p : Proc) (os : OS)
    (h : ∀ pid ∈ p.childPids, os pid ≠ PState.gone) :
    getRunningChildCount p os = p.childPids.length := by
  unfold getRunningChildCount
  rw [List.countP_eq_length]
  intro pid hpid
  simp [pidExists, h pid hpid]

/-- A `this->start()` call (including its failure path) preserves the
well-formedness invariant. -/
theorem startEffect_WF (p : Proc) (os : OS) (n : Nat) (hWF : WF ⟨p, os, n⟩) :
    WF ⟨(startEffect p os n).1, (startEffect p os n).2.1, (startEffect p os n).2.2⟩ := by
  obtain ⟨hnd, htr, hn1, hinst, hcount0, hcount⟩ := hWF
  simp only [getNumberOfInstances] at hcount0 hcount
  replace hnd : p.childPids.Nodup := hnd
  replace htr : ∀ pid ∈ p.childPids, 1 ≤ pid ∧ pid < n ∧ os pid ≠ PState.gone := htr
  replace hn1 : 1 ≤ n := hn1
  replace hinst : 0 ≤ p.instances := hinst
  replace hcount0 : 0 ≤ (p.childPids.length : Int) := hcount0
  replace hcount : (p.childPids.length : Int) ≤ p.instances := hcount
  have hrun : getRunningChildCount p os = p.childPids.length :=
    getRunningChildCount_eq_length p os (fun pid hpid => (htr pid hpid).2.2)
  unfold startEffect startP
  by_cases hlt : p.instances < 1
  · simp only [hlt, if_true]
    exact ⟨hnd, htr, hn1, hinst, hcount0, hcount⟩
  · simp only [hlt, if_false, hrun]
    set need := (p.instances - (p.childPids.length : Int)).toNat with hneedDef
    set newPids := (List.range need).map (fun i => n + i) with hnewDef
    have hneedval : (need : Int) = p.instances - p.childPids.length := by
      rw [hneedDef, Int.toNat_of_nonneg (by omega)]
    have hmemNew : ∀ q ∈ newPids, n ≤ q ∧ q < n + need := by
      intro q hq
      rw [hnewDef] at hq
      obtain ⟨i, hi, rfl⟩ := List.mem_map.mp hq
      have := List.mem_range.mp hi
      omega
    have hndNew : newPids.Nodup := by
      rw [hnewDef]
      refine List.Nodup.map ?_ (List.nodup_range need)
      intro a b hab
      have : n + a = n + b := hab
      omega
    have w1 : (p.childPids ++ newPids).Nodup := by
      rw [List.nodup_append]
      refine ⟨hnd, hndNew, ?_⟩
      intro q hq hq'
      have h1 := (htr q hq).2.1
      have h2 := (hmemNew q hq').1
      omega
    have w2 : ∀ pid ∈ p.childPids ++ newPids, 1 ≤ pid ∧ pid < n + need ∧
        (if newPids.contains pid then PState.running else os pid) ≠ PState.gone := by
      intro pid hpid
      rcases List.mem_append.mp hpid with hpid | hpid
      · obtain ⟨ha, hb, hc⟩ := htr pid hpid
        have hnotnew : pid ∉ newPids := by
          intro hmem
          have := (hmemNew pid hmem).1
          omega
        refine ⟨ha, by omega, ?_⟩
        rw [if_neg (by simpa using hnotnew)]
        exact hc
      · obtain ⟨ha, hb⟩ := hmemNew pid hpid
        refine ⟨by omega, by omega, ?_⟩
        rw [if_pos (by simpa using hpid)]
        simp
    have w3 : 1 ≤ n + need := by omega
    have w5 : 0 ≤ ((p.childPids ++ newPids).length : Int) := by positivity
    have w6 : ((p.childPids ++ newPids).length : Int) ≤ p.instances := by
      rw [List.length_append, hnewDef, List.length_map, List.length_range]
      push_cast
      omega
    exact ⟨w1, w2, w3, hinst, w5, w6⟩

/-- Every non-reload system step (`start`, `stop`, `stopOneInstance`,
child death, monitor reap) preserves the well-formedness invariant. -/
theorem stepSys_preserves_WF (dies : Nat → Bool) (s : Sys) (st : Step)
    (hWF : WF s) (hnr : st.isReload = false) : WF (stepSys dies s st) := by
  obtain ⟨p, os, n⟩ := s
  obtain ⟨hnd, htr, hn1, hinst, hcount0, hcount⟩ := hWF
  simp only [getNumberOfInstances] at hcount0 hcount
  replace hnd : p.childPids.Nodup := hnd
  replace htr : ∀ pid ∈ p.childPids, 1 ≤ pid ∧ pid < n ∧ os pid ≠ PState.gone := htr
  replace hn1 : 1 ≤ n := hn1
  replace hinst : 0 ≤ p.instances := hinst
  replace hcount0 : 0 ≤ (p.childPids.length : Int) := hcount0
  replace hcount : (p.childPids.length : Int) ≤ p.instances := hcount
  cases st with
  | reload c => simp [Step.isReload] at hnr
  | start =>
    exact startEffect_WF p os n ⟨hnd, htr, hn1, hinst, hcount0, hcount⟩
  | stop =>
    show WF (match stopP p os dies with
      | some r => ⟨r.1, r.2, n⟩
      | none => ⟨p, os, n⟩)
    by_cases h0 : getRunningChildCount p os = 0
    · simp only [stopP, h0, if_pos]
      exact ⟨hnd, htr, hn1, hinst, hcount0, hcount⟩
    · by_cases hpass : (stopPass p.stopTime dies p.childPids os).1 = []
      · simp only [stopP, h0, if_neg, if_pos, hpass, ite_true, ite_false]
        refine ⟨List.nodup_nil, by simp, hn1, hinst, ?_, ?_⟩
        · show 0 ≤ ((List.nil (α := Nat)).length : Int)
          simp
        · show (((List.nil (α := Nat))).length : Int) ≤ p.instances
          simpa using hinst
      · simp only [stopP, h0, hpass, ite_false]
        exact ⟨hnd, htr, hn1, hinst, hcount0, hcount⟩
  | stopInstance =>
    show WF ⟨(stopInstanceP p os dies).1, (stopInstanceP p os dies).2, n⟩
    unfold stopInstanceP
    cases hlast : p.childPids.getLast? with
    | none => exact ⟨hnd, htr, hn1, hinst, hcount0, hcount⟩
    | some lastPid =>
      simp only []
      set kept := p.childPids.filter
        (fun pid => !(if (stopOnePid p.stopTime (dies lastPid) (os lastPid)).1
          then [lastPid] else []).contains pid) with hkept
      have hsub : kept.Sublist p.childPids := by
        rw [hkept]; exact List.filter_sublist _
      have w2 : ∀ pid ∈ kept, 1 ≤ pid ∧ pid < n ∧
          (if pid = lastPid then (stopOnePid p.stopTime (dies lastPid) (os lastPid)).2
           else os pid) ≠ PState.gone := by
        intro pid hpid
        rw [hkept] at hpid
        have hmem := List.mem_filter.mp hpid
        obtain ⟨ha, hb, hc⟩ := htr pid hmem.1
        have hne : pid ≠ lastPid := by
          intro he
          subst he
          rw [stopOnePid_eq] at hmem
          simp at hmem
        refine ⟨ha, hb, ?_⟩
        rw [if_neg hne]
        exact hc
      have hlen : kept.length ≤ p.childPids.length := hsub.length_le
      refine ⟨hsub.nodup hnd, w2, hn1, hinst, ?_, ?_⟩
      · show 0 ≤ (kept.length : Int)
        positivity
      · show (kept.length : Int) ≤ p.instances
        have : (kept.length : Int) ≤ (p.childPids.length : Int) := by exact_mod_cast hlen
        omega
  | die pid =>
    refine ⟨hnd, ?_, hn1, hinst, hcount0, hcount⟩
    intro q hq
    obtain ⟨ha, hb, hc⟩ := htr q hq
    refine ⟨ha, hb, ?_⟩
    show (if q = pid then (match os pid with
      | PState.running => PState.zombie
      | st => st) else os q) ≠ PState.gone
    by_cases hqp : q = pid
    · subst hqp
      rw [if_pos rfl]
      cases hos : os q with
      | running => simp
      | zombie => simp
      | gone => exact absurd hos hc
    · rw [if_neg hqp]
      exact hc
  | reap pid k =>
    show WF (match os pid with
      | PState.zombie =>
        let os1 : OS := fun q => if q = pid then PState.gone else os q
        let r := handleChildExit p os1 n pid k
        ⟨r.1.1, r.1.2.1, r.1.2.2⟩
      | _ => ⟨p, os, n⟩)
    cases hos : os pid with
    | running => exact ⟨hnd, htr, hn1, hinst, hcount0, hcount⟩
    | gone => exact ⟨hnd, htr, hn1, hinst, hcount0, hcount⟩
    | zombie =>
      simp only []
      unfold handleChildExit
      by_cases hmem : pid ∈ p.childPids
      · have hWF1 : WF ⟨{ p with childPids := p.childPids.erase pid },
            fun q => if q = pid then PState.gone else os q, n⟩ := by
          have w2 : ∀ q ∈ p.childPids.erase pid, 1 ≤ q ∧ q < n ∧
              (if q = pid then PState.gone else os q) ≠ PState.gone := by
            intro q hq
            have hq' := (List.Nodup.mem_erase_iff hnd).mp hq
            obtain ⟨ha, hb, hc⟩ := htr q hq'.2
            refine ⟨ha, hb, ?_⟩
            rw [if_neg hq'.1]
            exact hc
          have hlen : (p.childPids.erase pid).length ≤ p.childPids.length :=
            (List.erase_sublist pid p.childPids).length_le
          refine ⟨hnd.erase pid, w2, hn1, hinst, ?_, ?_⟩
          · show 0 ≤ ((p.childPids.erase pid).length : Int)
            positivity
          · show ((p.childPids.erase pid).length : Int) ≤ p.instances
            have : ((p.childPids.erase pid).length : Int) ≤ (p.childPids.length : Int) := by
              exact_mod_cast hlen
            omega
        have hcont : p.childPids.contains pid = true := by simpa using hmem
        simp only [hcont, if_pos, if_true]
        split_ifs with hb1 hb2 hb3
        · exact startEffect_WF _ _ _ hWF1
        · exact startEffect_WF _ _ _ hWF1
        · exact hWF1
        · exact hWF1
      · have hcont : p.childPids.contains pid = false := by simpa using hmem
        simp only [hcont, Bool.false_eq_true, if_false]
        refine ⟨hnd, ?_, hn1, hinst, hcount0, hcount⟩
        intro q hq
        obtain ⟨ha, hb, hc⟩ := htr q hq
        have hne : q ≠ pid := fun he => hmem (he ▸ hq)
        refine ⟨ha, hb, ?_⟩
        show (if q = pid then PState.gone else os q) ≠ PState.gone
        rw [if_neg hne]
        exact hc

/-- C7 counterexample: the claim asserts
`0 ≤ runningInstanceCount ≤ instances` at every moment reachable by
start, stop, stopOneInstance, reload and monitor-reap steps; but after
a `start` (three children) followed by a `reload` whose only change is
`instances := 1` — `instances` is not in `restartKeys`, so
`Process::reloadConfig` applies it without stopping or starting
anything — the Program tracks 3 children while `instances` is 1. -/
theorem accounting_invariant_reload_violation :
    webSysShrunk.proc.childPids.length = 3 ∧
    webSysShrunk.proc.instances = 1 ∧
    ¬(getNumberOfInstances webSysShrunk.proc ≤ webSysShrunk.proc.instances) :=
  ⟨rfl, rfl, by decide⟩

/-- C7 amended: for every Program and every state reachable from a
well-formed state by any sequence of start, stop, stopOneInstance,
child-death and monitor-reap steps (reload excluded), the running
instance count satisfies `0 ≤ runningInstanceCount ≤ instances`. -/
theorem accounting_invariant_no_reload (dies : Nat → Bool) (steps : List Step)
    (hsteps : ∀ st ∈ steps, st.isReload = false) (s : Sys) (hWF : WF s) :
    WF (steps.foldl (stepSys dies) s) ∧
    0 ≤ getNumberOfInstances (steps.foldl (stepSys dies) s).proc ∧
    getNumberOfInstances (steps.foldl (stepSys dies) s).proc ≤
      (steps.foldl (stepSys dies) s).proc.instances := by
  induction steps generalizing s with
  | nil => exact ⟨hWF, hWF.2.2.2.2.1, hWF.2.2.2.2.2⟩
  | cons st rest ih =>
    rw [List.foldl_cons]
    exact ih (fun x hx => hsteps x (List.mem_cons_of_mem _ hx)) _
      (stepSys_preserves_WF dies s st hWF (hsteps st (List.mem_cons_self _ _)))

/-- Witness for the C7 amended theorem: a concrete trace — start, one
child dies, the monitor reaps it, stop — keeps the invariant. -/
theorem accounting_invariant_no_reload_witness :
    (∀ st ∈ [Step.start, Step.die 1, Step.reap 1 (ExitKind.exited 0), Step.stop],
      st.isReload = false) ∧ WF webSys ∧
    (WF ([Step.start, Step.die 1, Step.reap 1 (ExitKind.exited 0),
        Step.stop].foldl (stepSys diesAll) webSys) ∧
      0 ≤ getNumberOfInstances ([Step.start, Step.die 1, Step.reap 1 (ExitKind.exited 0),
        Step.stop].foldl (stepSys diesAll) webSys).proc ∧
      getNumberOfInstances ([Step.start, Step.die 1, Step.reap 1 (ExitKind.exited 0),
        Step.stop].foldl (stepSys diesAll) webSys).proc ≤
        ([Step.start, Step.die 1, Step.reap 1 (ExitKind.exited 0),
          Step.stop].foldl (stepSys diesAll) webSys).proc.instances) :=
  ⟨by decide, by decide,
   accounting_invariant_no_reload diesAll
     [Step.start, Step.die 1, Step.reap 1 (ExitKind.exited 0), Step.stop]
     (by decide) webSys (by decide)⟩

/-- Witness for the C9 theorem: a second `stop` from the state left by
a first `stop` returns the same state with a zero running count. -/
theorem stop_idempotent_witness :
    stopP webProcStale osAllGone diesAll = some (webProcStale, osAllGone) ∧
    getRunningChildCount webProcStale osAllGone = 0 :=
  stop_idempotent webProcStale osAllGone diesAll webProcStale osAllGone rfl

end Taskmaster
